import Mathlib

/-!
Shallow embedding of the chat-session relay server (`src/index3.ts`).

The server keeps a process-wide `Map` from session ids to
`{ chat, agentName }` entries, resolves agent aliases case-insensitively,
and exposes non-streaming (`POST /api/chat/message`), streaming
(`POST /api/chat/stream`) and deletion (`DELETE /api/chat/sessions/:id`)
endpoints.  JavaScript effects are made explicit:

* `Date.now()` results are passed in as `Nat` parameters (one per call
  site, since the code calls `Date.now()` more than once per request);
* the agent runtime (`chat.prompt`, `.stream()`) is an oracle parameter
  (`prompt : Chat → String → Except String String`, resp. an
  `Except String (List StreamEvent)` for the event sequence);
* JavaScript truthiness of optional string fields (`undefined`, `null`
  and `""` are falsy) is `strTruthy` / `jsOr`;
* object identity of chat handles is tracked by a freshness counter
  `nextHandle` in the server state: `agent.chat(...)` consumes one
  counter value, so "no second handle constructed" is provable as
  "`nextHandle` unchanged";
* an HTTP response stream is a `StreamRes`: a list of already-written
  frames plus an `ended` flag; `res.write` after `res.end()` puts
  nothing on the wire (Node raises `ERR_STREAM_WRITE_AFTER_END`), which
  `resWrite` models by ignoring writes once `ended` is set.
-/

deriving instance DecidableEq for Except

namespace VibeRoz

/-- The two agent modules imported by `index3.ts`. -/
inductive AgentHandle where
  | bookAssistant
  | cryptoAssistant
deriving DecidableEq, Repr

/-- JavaScript `String.prototype.toLowerCase()`: each character is
lowered individually (written char-wise over the string's character
list so that it evaluates inside the kernel; `String.toLower` is the
same map but is implemented by an opaque native loop). -/
def toLowerCase (s : String) : String :=
  String.mk (s.data.map Char.toLower)

/-- `getAgent` (index3.ts line 21): `switch (agentName.toLowerCase())`
with fall-through alias cases, throwing `Unknown agent: ${agentName}`
on the default branch. -/
def getAgent (agentName : String) : Except String AgentHandle :=
  let l := toLowerCase agentName
  if l = "book" then Except.ok AgentHandle.bookAssistant
  else if l = "book-assistant" then Except.ok AgentHandle.bookAssistant
  else if l = "crypto" then Except.ok AgentHandle.cryptoAssistant
  else if l = "crypto-assistant" then Except.ok AgentHandle.cryptoAssistant
  else Except.error ("Unknown agent: " ++ agentName)

/-- A chat handle produced by `agent.chat({ id, persist: true })`.
`handleId` models JavaScript object identity: each constructed handle
gets a fresh value. -/
structure Chat where
  handleId : Nat
  agent : AgentHandle
  id : String
  persist : Bool
deriving DecidableEq, Repr

/-- A value stored in the `chatSessions` map: `{ chat, agentName }`. -/
structure SessionEntry where
  chat : Chat
  agentName : String
deriving DecidableEq, Repr

/-- Server state: the `chatSessions` map (as an association list in
insertion order, keys unique) plus the freshness counter for chat
handles. -/
structure ServerState where
  chatSessions : List (String × SessionEntry)
  nextHandle : Nat
deriving DecidableEq, Repr

/-- `chatSessions.has(k)`. -/
def mapHas (m : List (String × SessionEntry)) (k : String) : Bool :=
  m.any (fun p => p.1 == k)

/-- `chatSessions.get(k)` (first entry with the key; keys are unique). -/
def mapGet (m : List (String × SessionEntry)) (k : String) : Option SessionEntry :=
  (m.find? (fun p => p.1 == k)).map Prod.snd

/-- `chatSessions.set(k, v)`: replace in place if the key is present,
append otherwise (JavaScript `Map` keeps insertion order). -/
def mapSet (m : List (String × SessionEntry)) (k : String) (v : SessionEntry) :
    List (String × SessionEntry) :=
  if mapHas m k then m.map (fun p => if p.1 == k then (k, v) else p)
  else m ++ [(k, v)]

/-- `chatSessions.delete(k)`. -/
def mapDelete (m : List (String × SessionEntry)) (k : String) :
    List (String × SessionEntry) :=
  m.filter (fun p => !(p.1 == k))

/-- JavaScript truthiness of an optional string request field:
`undefined` (here `none`) and `""` are falsy. -/
def strTruthy : Option String → Bool
  | none => false
  | some s => !(s == "")

/-- JavaScript `a || b` for an optional string `a` and a string `b`. -/
def jsOr : Option String → String → String
  | none, d => d
  | some s, d => if s == "" then d else s

/-- The generated session key: `` `session-${agentName}-${Date.now()}` ``. -/
def genSessionId (agentName : String) (now : Nat) : String :=
  "session-" ++ agentName ++ "-" ++ toString now

/-- The record returned by `getOrCreateChatSession`. -/
structure ChatSessionResult where
  sessionId : String
  chat : Chat
  agentName : String
deriving DecidableEq, Repr

/-- `getOrCreateChatSession` (index3.ts line 34).  Resolves the agent
first (throws on unknown names even when the session already exists),
then creates the map entry only when the key is absent, and returns the
stored entry's `chat` and `agentName`.  `now` is the `Date.now()` value
used when the caller supplied no (truthy) session id.  The final
`none` branch models the JavaScript crash that would occur if
`chatSessions.get(...)` returned `undefined`; it is unreachable. -/
def getOrCreateChatSession (agentName : String) (sessionId : Option String)
    (now : Nat) (st : ServerState) :
    Except String (ChatSessionResult × ServerState) :=
  match getAgent agentName with
  | Except.error e => Except.error e
  | Except.ok agent =>
    let chatSessionId := jsOr sessionId (genSessionId agentName now)
    let st' :=
      if mapHas st.chatSessions chatSessionId then st
      else
        let chat : Chat :=
          { handleId := st.nextHandle, agent := agent, id := chatSessionId, persist := true }
        { chatSessions := mapSet st.chatSessions chatSessionId
            { chat := chat, agentName := agentName },
          nextHandle := st.nextHandle + 1 }
    match mapGet st'.chatSessions chatSessionId with
    | some entry =>
        Except.ok
          ({ sessionId := chatSessionId, chat := entry.chat, agentName := entry.agentName }, st')
    | none => Except.error "TypeError: Cannot read properties of undefined"

/-- The JSON body of a chat request: `{ sessionId?, agentName?, message? }`. -/
structure ChatRequest where
  sessionId : Option String
  agentName : Option String
  message : Option String
deriving DecidableEq, Repr

/-- Response of `POST /api/chat/message`:
a 400 JSON error, a 200 JSON success body, or a 500 JSON error with
`details`. -/
inductive MsgOutcome where
  | badRequest (error : String)
  | okResponse (sessionId agentName message response timestamp : String)
  | serverError (error details : String)
deriving DecidableEq, Repr

/-- The tail of the `/api/chat/message` handler after a `chatSession`
has been resolved: `await chatSession.chat.prompt(message)`, then the
success JSON (whose `sessionId` field re-evaluates
`` sessionId || `session-${chatSession.agentName}-${Date.now()}` ``
with a second `Date.now()`, `now2`), or the catch block's 500. -/
def finishMessage (req : ChatRequest) (chatSession : SessionEntry)
    (prompt : Chat → String → Except String String)
    (now2 : Nat) (ts : String) (st : ServerState) : MsgOutcome × ServerState :=
  match prompt chatSession.chat (req.message.getD "") with
  | Except.error e => (MsgOutcome.serverError "Failed to process message" e, st)
  | Except.ok response =>
      (MsgOutcome.okResponse
        (jsOr req.sessionId (genSessionId chatSession.agentName now2))
        chatSession.agentName (req.message.getD "") response ts, st)

/-- `POST /api/chat/message` (index3.ts line 82).  `prompt` is the agent
runtime oracle, `now1` the `Date.now()` inside `getOrCreateChatSession`,
`now2` the `Date.now()` in the response body, `ts` the
`new Date().toISOString()` timestamp.  A throw from
`getOrCreateChatSession` (unknown agent) lands in the catch block
(500), exactly as in the source. -/
def chatMessage (req : ChatRequest) (prompt : Chat → String → Except String String)
    (now1 now2 : Nat) (ts : String) (st : ServerState) : MsgOutcome × ServerState :=
  if strTruthy req.message then
    if strTruthy req.sessionId && mapHas st.chatSessions (req.sessionId.getD "") then
      match mapGet st.chatSessions (req.sessionId.getD "") with
      | some chatSession => finishMessage req chatSession prompt now2 ts st
      | none =>
          (MsgOutcome.serverError "Failed to process message"
            "TypeError: Cannot read properties of undefined", st)
    else if strTruthy req.agentName then
      match getOrCreateChatSession (req.agentName.getD "") req.sessionId now1 st with
      | Except.error e => (MsgOutcome.serverError "Failed to process message" e, st)
      | Except.ok (result, st') =>
          finishMessage req { chat := result.chat, agentName := result.agentName }
            prompt now2 ts st'
    else
      (MsgOutcome.badRequest "Either sessionId or agentName is required", st)
  else
    (MsgOutcome.badRequest "Message is required", st)

/-- The events the relay subscribes to on the runtime's stream
(`TLLMEvent.Content` / `ToolCall` / `End` / `Error`).  Tool name and
arguments are optional because the source reads `toolCall?.tool?.name`. -/
inductive StreamEvent where
  | content (c : String)
  | toolCall (tool arguments : Option String)
  | eventEnd
  | eventError (message : String)
deriving DecidableEq, Repr

/-- One `data: <JSON>\n\n` frame of the event stream. -/
inductive Frame where
  | start (sessionId agentName : String)
  | content (content : String)
  | toolCall (tool arguments : Option String)
  | endFrame
  | error (error : String)
deriving DecidableEq, Repr

/-- An HTTP response in streaming use: the frames already on the wire
and whether `res.end()` has been called. -/
structure StreamRes where
  frames : List Frame
  ended : Bool
deriving DecidableEq, Repr

/-- `res.write(frame)`.  After `res.end()` nothing further reaches the
wire (Node raises `ERR_STREAM_WRITE_AFTER_END` instead of writing). -/
def resWrite (r : StreamRes) (f : Frame) : StreamRes :=
  if r.ended then r else { frames := r.frames ++ [f], ended := r.ended }

/-- `res.end()`. -/
def resEnd (r : StreamRes) : StreamRes :=
  { r with ended := true }

/-- The four event listeners of index3.ts lines 151-173, as one step of
the relay: content and tool_call frames are forwarded, `End`/`Error`
write a terminal frame and close the response. -/
def relayEvent (r : StreamRes) (e : StreamEvent) : StreamRes :=
  match e with
  | StreamEvent.content c => resWrite r (Frame.content c)
  | StreamEvent.toolCall t a => resWrite r (Frame.toolCall t a)
  | StreamEvent.eventEnd => resEnd (resWrite r Frame.endFrame)
  | StreamEvent.eventError m => resEnd (resWrite r (Frame.error m))

/-- Observable result of `POST /api/chat/stream`: either a plain 400
JSON error (no frame written), or a response stream; `upgraded` records
whether `res.writeHead(200, text/event-stream ...)` ran before the
first write (it did not on the catch path reached before the upgrade). -/
inductive StreamOutcome where
  | badRequest (error : String)
  | relayed (upgraded : Bool) (frames : List Frame)
deriving DecidableEq, Repr

/-- The frames written on the response, for either outcome. -/
def StreamOutcome.wireFrames : StreamOutcome → List Frame
  | StreamOutcome.badRequest _ => []
  | StreamOutcome.relayed _ f => f

/-- The tail of the `/api/chat/stream` handler after a `chatSession`
has been resolved: `res.writeHead(...)`, the synthetic `start` frame
(whose `sessionId` field evaluates
`` sessionId || `session-${chatSession.agentName}-${Date.now()}` ``
with a fresh `Date.now()`, `now2`), then
`await chatSession.chat.prompt(message).stream()`.  If obtaining the
stream throws, the catch block writes an `error` frame after the
already-written `start` frame and ends the response; otherwise the
listeners relay the runtime's event sequence `evs`. -/
def streamDispatch (req : ChatRequest) (chatSession : SessionEntry)
    (streamOf : Except String (List StreamEvent))
    (now2 : Nat) (st : ServerState) : StreamOutcome × ServerState :=
  let r0 := resWrite { frames := [], ended := false }
    (Frame.start (jsOr req.sessionId (genSessionId chatSession.agentName now2))
      chatSession.agentName)
  match streamOf with
  | Except.error e =>
      (StreamOutcome.relayed true (resEnd (resWrite r0 (Frame.error e))).frames, st)
  | Except.ok evs =>
      (StreamOutcome.relayed true (evs.foldl relayEvent r0).frames, st)

/-- `POST /api/chat/stream` (index3.ts line 115).  Validation and
session resolution are identical to `chatMessage`; a throw before
`res.writeHead` (unknown agent inside `getOrCreateChatSession`) lands
in the catch block, which writes an `error` frame on the not-yet-
upgraded response and ends it — it does not produce a 400. -/
def chatStream (req : ChatRequest) (streamOf : Except String (List StreamEvent))
    (now1 now2 : Nat) (st : ServerState) : StreamOutcome × ServerState :=
  if strTruthy req.message then
    if strTruthy req.sessionId && mapHas st.chatSessions (req.sessionId.getD "") then
      match mapGet st.chatSessions (req.sessionId.getD "") with
      | some chatSession => streamDispatch req chatSession streamOf now2 st
      | none =>
          (StreamOutcome.relayed false
            (resEnd (resWrite { frames := [], ended := false }
              (Frame.error "TypeError: Cannot read properties of undefined"))).frames, st)
    else if strTruthy req.agentName then
      match getOrCreateChatSession (req.agentName.getD "") req.sessionId now1 st with
      | Except.error e =>
          (StreamOutcome.relayed false
            (resEnd (resWrite { frames := [], ended := false } (Frame.error e))).frames, st)
      | Except.ok (result, st') =>
          streamDispatch req { chat := result.chat, agentName := result.agentName }
            streamOf now2 st'
    else
      (StreamOutcome.badRequest "Either sessionId or agentName is required", st)
  else
    (StreamOutcome.badRequest "Message is required", st)

/-- Response of `DELETE /api/chat/sessions/:sessionId`. -/
inductive DeleteOutcome where
  | ok (message : String)
  | notFound (error : String)
deriving DecidableEq, Repr

/-- `DELETE /api/chat/sessions/:sessionId` (index3.ts line 191). -/
def deleteSession (sessionId : String) (st : ServerState) : DeleteOutcome × ServerState :=
  if mapHas st.chatSessions sessionId then
    (DeleteOutcome.ok "Session deleted successfully",
      { st with chatSessions := mapDelete st.chatSessions sessionId })
  else
    (DeleteOutcome.notFound "Session not found", st)

/-! ## Framing predicates for the event stream -/

/-- Is this the synthetic `start` frame? -/
def isStartFrame : Frame → Bool
  | Frame.start _ _ => true
  | _ => false

/-- Is this a terminal frame (`end` or `error`)? -/
def isTerminalFrame : Frame → Bool
  | Frame.endFrame => true
  | Frame.error _ => true
  | _ => false

/-- No frame of the list is terminal. -/
def noTerminal (F : List Frame) : Bool :=
  F.all (fun f => !(isTerminalFrame f))

/-- Every frame other than the last one is non-terminal: hence at most
one terminal frame can occur, and nothing follows a terminal frame. -/
def terminalOnlyLast : List Frame → Bool
  | [] => true
  | f :: rest => rest.isEmpty || (!(isTerminalFrame f) && terminalOnlyLast rest)

/-- Invariant maintained by the relay while forwarding runtime events:
the first written frame stays the synthetic start frame `f0`, it is the
only start frame, no terminal frame is written while the response is
open, and once the response has ended the terminal frame (if any) is
the last one. -/
def RelayInv (f0 : Frame) (r : StreamRes) : Prop :=
  r.frames.head? = some f0 ∧
  r.frames.countP (fun f => isStartFrame f) = 1 ∧
  (r.ended = false → noTerminal r.frames = true) ∧
  (r.ended = true → terminalOnlyLast r.frames = true)

/-! ## Helper lemmas about the registry map -/
theorem mapHas_eq_isSome (m : List (String × SessionEntry)) (k : String) :
    mapHas m k = (mapGet m k).isSome := by
  induction m with
  | nil => simp [mapHas, mapGet]
  | cons p rest ih =>
      cases h : (p.1 == k) with
      | true => simp [mapHas, mapGet, List.find?, h]
      | false =>
          simp only [mapHas, mapGet, List.any_cons, h, Bool.false_or, List.find?]
          simpa [mapHas, mapGet] using ih

theorem mapGet_append_absent (m : List (String × SessionEntry)) (k : String)
    (v : SessionEntry) (h : mapHas m k = false) :
    mapGet (m ++ [(k, v)]) k = some v := by
  induction m with
  | nil => simp [mapGet, List.find?]
  | cons p rest ih =>
      simp only [mapHas, List.any_cons, Bool.or_eq_false_iff] at h
      have h2 : mapHas rest k = false := h.2
      simpa [mapGet, List.find?, h.1] using ih h2

theorem mapGet_mapDelete (m : List (String × SessionEntry)) (k : String) :
    mapGet (mapDelete m k) k = none := by
  induction m with
  | nil => simp [mapGet, mapDelete]
  | cons p rest ih =>
      cases h : (p.1 == k) with
      | true =>
          have hrest := ih
          simp only [mapDelete] at hrest ⊢
          rw [List.filter_cons]
          simp [h, hrest]
      | false =>
          have hrest := ih
          simp only [mapDelete] at hrest ⊢
          rw [List.filter_cons]
          simp [h, mapGet, List.find?, hrest]

theorem mapDelete_of_not_has (m : List (String × SessionEntry)) (k : String)
    (h : mapHas m k = false) : mapDelete m k = m := by
  induction m with
  | nil => rfl
  | cons p rest ih =>
      simp only [mapHas, List.any_cons, Bool.or_eq_false_iff] at h
      have h2 : mapHas rest k = false := h.2
      have hrest := ih h2
      simp only [mapDelete] at hrest ⊢
      rw [List.filter_cons]
      simp [h.1, hrest]

theorem mapDelete_length (m : List (String × SessionEntry)) (k : String)
    (hnd : (m.map Prod.fst).Nodup) (h : mapHas m k = true) :
    (mapDelete m k).length + 1 = m.length := by
  induction m with
  | nil => simp [mapHas] at h
  | cons p rest ih =>
      rw [List.map_cons, List.nodup_cons] at hnd
      cases hp : (p.1 == k) with
      | true =>
          have hk : p.1 = k := by simpa using hp
          have habs : mapHas rest k = false := by
            cases hx : mapHas rest k with
            | false => rfl
            | true =>
                exfalso
                rw [mapHas, List.any_eq_true] at hx
                obtain ⟨q, hqmem, hqk⟩ := hx
                have hq : q.1 = k := by simpa using hqk
                exact hnd.1 (by
                  rw [hk, ← hq]
                  exact List.mem_map_of_mem Prod.fst hqmem)
          have hrest := mapDelete_of_not_has rest k habs
          simp only [mapDelete] at hrest ⊢
          rw [List.filter_cons]
          simp [hp, hrest]
      | false =>
          have h2 : mapHas rest k = true := by
            simpa [mapHas, List.any_cons, hp] using h
          have hrec := ih hnd.2 h2
          simp only [mapDelete] at hrec ⊢
          rw [List.filter_cons]
          simp only [hp, Bool.not_false, if_true, List.length_cons]
          omega

/-! ## Helper lemmas about `getOrCreateChatSession` -/

theorem getOrCreate_hit (a : String) (sid : Option String) (now : Nat)
    (st : ServerState) (agent : AgentHandle) (entry : SessionEntry)
    (hA : getAgent a = Except.ok agent)
    (hE : mapGet st.chatSessions (jsOr sid (genSessionId a now)) = some entry) :
    getOrCreateChatSession a sid now st =
      Except.ok
        ({ sessionId := jsOr sid (genSessionId a now),
           chat := entry.chat, agentName := entry.agentName }, st) := by
  have hHas : mapHas st.chatSessions (jsOr sid (genSessionId a now)) = true := by
    rw [mapHas_eq_isSome, hE]; rfl
  simp [getOrCreateChatSession, hA, hHas, hE]

theorem getOrCreate_miss (a : String) (sid : Option String) (now : Nat)
    (st : ServerState) (agent : AgentHandle)
    (hA : getAgent a = Except.ok agent)
    (hAbs : mapHas st.chatSessions (jsOr sid (genSessionId a now)) = false) :
    getOrCreateChatSession a sid now st =
      Except.ok
        ({ sessionId := jsOr sid (genSessionId a now),
           chat := { handleId := st.nextHandle, agent := agent,
                     id := jsOr sid (genSessionId a now), persist := true },
           agentName := a },
         { chatSessions := st.chatSessions ++
             [(jsOr sid (genSessionId a now),
               { chat := { handleId := st.nextHandle, agent := agent,
                           id := jsOr sid (genSessionId a now), persist := true },
                 agentName := a })],
           nextHandle := st.nextHandle + 1 }) := by
  simp [getOrCreateChatSession, hA, hAbs, mapSet,
    mapGet_append_absent st.chatSessions _ _ hAbs]

theorem getOrCreate_stored (a s : String) (now : Nat) (st st₁ : ServerState)
    (r : ChatSessionResult) (hs : s ≠ "")
    (h1 : getOrCreateChatSession a (some s) now st = Except.ok (r, st₁)) :
    r.sessionId = s ∧
      mapGet st₁.chatSessions s = some { chat := r.chat, agentName := r.agentName } := by
  have hjs : jsOr (some s) (genSessionId a now) = s := by simp [jsOr, hs]
  cases hA : getAgent a with
  | error e =>
      rw [show getOrCreateChatSession a (some s) now st = Except.error e by
        simp [getOrCreateChatSession, hA]] at h1
      exact absurd h1 (by simp)
  | ok agent =>
      cases hHas : mapHas st.chatSessions s with
      | true =>
          have hSome : (mapGet st.chatSessions s).isSome := by
            rw [← mapHas_eq_isSome, hHas]
          obtain ⟨entry, hE⟩ := Option.isSome_iff_exists.mp hSome
          rw [getOrCreate_hit a (some s) now st agent entry hA (by rwa [hjs])] at h1
          obtain ⟨h2, h3⟩ := Prod.mk.injEq .. ▸ (Except.ok.injEq .. ▸ h1)
          subst h3
          constructor
          · rw [← h2, hjs]
          · rw [← h2]
            simpa [hjs] using hE
      | false =>
          rw [getOrCreate_miss a (some s) now st agent hA (by rwa [hjs])] at h1
          obtain ⟨h2, h3⟩ := Prod.mk.injEq .. ▸ (Except.ok.injEq .. ▸ h1)
          subst h3
          constructor
          · rw [← h2, hjs]
          · rw [← h2]
            simp only [hjs]
            exact mapGet_append_absent st.chatSessions s _ (by rwa [hjs] at *)

theorem noTerminal_append (F : List Frame) (f : Frame)
    (hF : noTerminal F = true) (hf : isTerminalFrame f = false) :
    noTerminal (F ++ [f]) = true := by
  simp only [noTerminal, List.all_append, List.all_cons, List.all_nil] at hF ⊢
  simp [hF, hf]

theorem terminalOnlyLast_append (F : List Frame) (f : Frame)
    (hF : noTerminal F = true) :
    terminalOnlyLast (F ++ [f]) = true := by
  induction F with
  | nil => simp [terminalOnlyLast]
  | cons g rest ih =>
      simp only [noTerminal, List.all_cons, Bool.and_eq_true] at hF
      have hrest : noTerminal rest = true := by
        simp [noTerminal, hF.2]
      simp only [List.cons_append, terminalOnlyLast]
      have : (rest ++ [f]).isEmpty = false := by
        cases rest <;> simp
      simp [this, ih hrest]
      simpa using hF.1

theorem noTerminal_terminalOnlyLast (F : List Frame)
    (hF : noTerminal F = true) : terminalOnlyLast F = true := by
  induction F with
  | nil => rfl
  | cons g rest ih =>
      simp only [noTerminal, List.all_cons, Bool.and_eq_true] at hF
      have hrest : noTerminal rest = true := by simp [noTerminal, hF.2]
      simp only [terminalOnlyLast]
      simp [ih hrest]
      exact Or.inr (by simpa using hF.1)

theorem terminalOnlyLast_countP (F : List Frame)
    (hF : terminalOnlyLast F = true) :
    F.countP (fun f => isTerminalFrame f) ≤ 1 := by
  induction F with
  | nil => simp
  | cons g rest ih =>
      simp only [terminalOnlyLast, Bool.or_eq_true, List.isEmpty_iff,
        Bool.and_eq_true] at hF
      rcases hF with hF | ⟨hg, hrest⟩
      · subst hF
        simp [List.countP_cons]
        split <;> simp
      · have := ih hrest
        rw [List.countP_cons]
        simp only [Bool.not_eq_true'] at hg
        simp [hg]
        exact this

theorem head?_append_left (F : List Frame) (l : List Frame) (f0 : Frame)
    (h : F.head? = some f0) : (F ++ l).head? = some f0 := by
  cases F with
  | nil => simp at h
  | cons g rest => simpa using h

/-- One relay step preserves the framing invariant. -/
theorem relayEvent_inv (f0 : Frame) (r : StreamRes) (e : StreamEvent)
    (hinv : RelayInv f0 r) : RelayInv f0 (relayEvent r e) := by
  obtain ⟨hhead, hcount, hopen, hclosed⟩ := hinv
  cases hend : r.ended with
  | true =>
      have hid : ∀ f, relayEvent r f = r := by
        intro f
        cases r with
        | mk frames ended =>
            cases f <;> simp_all [relayEvent, resWrite, resEnd]
      rw [hid e]
      exact ⟨hhead, hcount, hopen, hclosed⟩
  | false =>
      have hopen' := hopen hend
      cases e with
      | content c =>
          refine ⟨?_, ?_, ?_, ?_⟩ <;>
            simp only [relayEvent, resWrite, hend, if_neg Bool.false_ne_true]
          · exact head?_append_left _ _ _ hhead
          · simpa [List.countP_append, isStartFrame] using hcount
          · intro _
            exact noTerminal_append _ _ hopen' rfl
          · intro h
            simp at h
      | toolCall t a =>
          refine ⟨?_, ?_, ?_, ?_⟩ <;>
            simp only [relayEvent, resWrite, hend, if_neg Bool.false_ne_true]
          · exact head?_append_left _ _ _ hhead
          · simpa [List.countP_append, isStartFrame] using hcount
          · intro _
            exact noTerminal_append _ _ hopen' rfl
          · intro h
            simp at h
      | eventEnd =>
          refine ⟨?_, ?_, ?_, ?_⟩ <;>
            simp only [relayEvent, resWrite, resEnd, hend, if_neg Bool.false_ne_true]
          · exact head?_append_left _ _ _ hhead
          · simpa [List.countP_append, isStartFrame] using hcount
          · intro h
            simp at h
          · intro _
            exact terminalOnlyLast_append _ _ hopen'
      | eventError m =>
          refine ⟨?_, ?_, ?_, ?_⟩ <;>
            simp only [relayEvent, resWrite, resEnd, hend, if_neg Bool.false_ne_true]
          · exact head?_append_left _ _ _ hhead
          · simpa [List.countP_append, isStartFrame] using hcount
          · intro h
            simp at h
          · intro _
            exact terminalOnlyLast_append _ _ hopen'

/-- The whole relay loop preserves the framing invariant. -/
theorem relay_foldl_inv (f0 : Frame) (evs : List StreamEvent) (r : StreamRes)
    (hinv : RelayInv f0 r) : RelayInv f0 (evs.foldl relayEvent r) := by
  induction evs generalizing r with
  | nil => exact hinv
  | cons e rest ih => exact ih _ (relayEvent_inv f0 r e hinv)

/-! ## Further shared helpers -/

theorem beq_empty_false_of_ne (s : String) (hs : s ≠ "") : (s == "") = false := by
  cases hx : (s == "") with
  | false => rfl
  | true => exact absurd (by simpa using hx) hs

theorem strTruthy_some (s : String) (hs : s ≠ "") : strTruthy (some s) = true := by
  simp [strTruthy, beq_empty_false_of_ne s hs]

theorem jsOr_some (s : String) (hs : s ≠ "") (d : String) : jsOr (some s) d = s := by
  simp [jsOr, beq_empty_false_of_ne s hs]

theorem relayInv_init (sid an : String) :
    RelayInv (Frame.start sid an)
      { frames := [Frame.start sid an], ended := false } := by
  refine ⟨rfl, ?_, ?_, ?_⟩
  · simp [List.countP_cons, isStartFrame]
  · intro _
    simp [noTerminal, isTerminalFrame]
  · intro h
    simp at h

theorem streamDispatch_ok_frames (req : ChatRequest) (cs : SessionEntry)
    (evs : List StreamEvent) (now2 : Nat) (st : ServerState) :
    (streamDispatch req cs (Except.ok evs) now2 st).1.wireFrames =
      (evs.foldl relayEvent
        { frames := [Frame.start (jsOr req.sessionId (genSessionId cs.agentName now2))
            cs.agentName],
          ended := false }).frames := by
  simp [streamDispatch, resWrite, StreamOutcome.wireFrames]

/-- Reduction of `chatMessage` on the existing-session branch: the
stored entry is dispatched, whatever the caller's `agentName`. -/
theorem chatMessage_existing (req : ChatRequest)
    (prompt : Chat → String → Except String String) (now1 now2 : Nat)
    (ts : String) (st : ServerState) (s : String) (entry : SessionEntry)
    (hmsg : strTruthy req.message = true)
    (hsid : req.sessionId = some s) (hs : s ≠ "")
    (hE : mapGet st.chatSessions s = some entry) :
    chatMessage req prompt now1 now2 ts st = finishMessage req entry prompt now2 ts st := by
  have hHas : mapHas st.chatSessions s = true := by
    rw [mapHas_eq_isSome, hE]; rfl
  simp [chatMessage, hmsg, hsid, strTruthy_some s hs, hHas, hE]

/-- Reduction of `chatStream` on the existing-session branch. -/
theorem chatStream_existing (req : ChatRequest)
    (streamOf : Except String (List StreamEvent)) (now1 now2 : Nat)
    (st : ServerState) (s : String) (entry : SessionEntry)
    (hmsg : strTruthy req.message = true)
    (hsid : req.sessionId = some s) (hs : s ≠ "")
    (hE : mapGet st.chatSessions s = some entry) :
    chatStream req streamOf now1 now2 st = streamDispatch req entry streamOf now2 st := by
  have hHas : mapHas st.chatSessions s = true := by
    rw [mapHas_eq_isSome, hE]; rfl
  simp [chatStream, hmsg, hsid, strTruthy_some s hs, hHas, hE]

/-- On the successful streaming path the first wire frame is the
synthetic start frame. -/
theorem streamDispatch_head (req : ChatRequest) (cs : SessionEntry)
    (evs : List StreamEvent) (now2 : Nat) (st : ServerState) :
    ((streamDispatch req cs (Except.ok evs) now2 st).1.wireFrames).head? =
      some (Frame.start (jsOr req.sessionId (genSessionId cs.agentName now2))
        cs.agentName) := by
  rw [streamDispatch_ok_frames]
  exact (relay_foldl_inv _ evs _ (relayInv_init _ _)).1

/-! ## Claims -/

/-- C5: `getAgent` resolves case-insensitively (two strings with the
same lower-casing resolve to the same handle), maps the aliases
`"book"`/`"book-assistant"` resp. `"crypto"`/`"crypto-assistant"` (in
any casing) to the same handle, fails on every other string with an
error carrying the offending name, and such a failure makes
`getOrCreateChatSession` fail too — at the `/api/chat/message` handler
level the registry is returned unchanged, so no session entry is
created. -/
theorem spec_C5 :
    (∀ s₁ s₂ : String, toLowerCase s₁ = toLowerCase s₂ →
      ∀ h : AgentHandle, (getAgent s₁ = Except.ok h ↔ getAgent s₂ = Except.ok h))
    ∧ getAgent "book" = Except.ok AgentHandle.bookAssistant
    ∧ getAgent "Book-Assistant" = Except.ok AgentHandle.bookAssistant
    ∧ getAgent "CRYPTO" = Except.ok AgentHandle.cryptoAssistant
    ∧ getAgent "crypto-assistant" = Except.ok AgentHandle.cryptoAssistant
    ∧ (∀ s e, getAgent s = Except.error e → e = "Unknown agent: " ++ s)
    ∧ (∀ a sid now st e, getAgent a = Except.error e →
        getOrCreateChatSession a sid now st = Except.error e)
    ∧ (∀ req prompt now1 now2 ts st e,
        strTruthy req.message = true →
        (strTruthy req.sessionId &&
          mapHas st.chatSessions (req.sessionId.getD "")) = false →
        strTruthy req.agentName = true →
        getAgent (req.agentName.getD "") = Except.error e →
        chatMessage req prompt now1 now2 ts st =
          (MsgOutcome.serverError "Failed to process message" e, st)) := by
  refine ⟨?_, by decide, by decide, by decide, by decide, ?_, ?_, ?_⟩
  · intro s₁ s₂ hlow h
    simp only [getAgent]
    rw [hlow]
    split_ifs <;> simp
  · intro s e h
    simp only [getAgent] at h
    split_ifs at h
    all_goals simp_all
  · intro a sid now st e h
    simp [getOrCreateChatSession, h]
  · intro req prompt now1 now2 ts st e hmsg hsess hag hA
    have : getOrCreateChatSession (req.agentName.getD "") req.sessionId now1 st =
        Except.error e := by
      simp [getOrCreateChatSession, hA]
    simp [chatMessage, hmsg, hsess, hag, this]

/-- Witness for C5's conditional conjuncts at concrete inputs. -/
theorem spec_C5_witness :
    (getAgent "BOOK" = Except.ok AgentHandle.bookAssistant ↔
      getAgent "book" = Except.ok AgentHandle.bookAssistant)
    ∧ ("Unknown agent: unknown-agent" : String) = "Unknown agent: " ++ "unknown-agent"
    ∧ getOrCreateChatSession "unknown-agent" none 0
        { chatSessions := [], nextHandle := 0 } =
        Except.error "Unknown agent: unknown-agent"
    ∧ chatMessage
        { sessionId := none, agentName := some "unknown-agent", message := some "hi" }
        (fun _ _ => Except.ok "r") 0 0 "T" { chatSessions := [], nextHandle := 0 } =
        (MsgOutcome.serverError "Failed to process message"
          "Unknown agent: unknown-agent", { chatSessions := [], nextHandle := 0 }) := by
  refine ⟨spec_C5.1 "BOOK" "book" (by decide) AgentHandle.bookAssistant, ?_, ?_, ?_⟩
  · exact spec_C5.2.2.2.2.2.1 "unknown-agent" "Unknown agent: unknown-agent" (by decide)
  · exact spec_C5.2.2.2.2.2.2.1 "unknown-agent" none 0
      { chatSessions := [], nextHandle := 0 } "Unknown agent: unknown-agent" (by decide)
  · exact spec_C5.2.2.2.2.2.2.2
      { sessionId := none, agentName := some "unknown-agent", message := some "hi" }
      (fun _ _ => Except.ok "r") 0 0 "T" { chatSessions := [], nextHandle := 0 }
      "Unknown agent: unknown-agent" (by decide) (by decide) (by decide) (by decide)

/-- C1: a request to `POST /api/chat/message` whose `sessionId` is
already in the registry is dispatched to that entry's stored chat
handle with the stored agent name — any `agentName` in the request is
ignored (`req.agentName` is arbitrary here) — and on success the
response's `agentName` field is the stored one while the `sessionId`
field echoes the caller's. -/
theorem spec_C1 (req : ChatRequest)
    (prompt : Chat → String → Except String String) (now1 now2 : Nat)
    (ts : String) (st : ServerState) (s : String) (entry : SessionEntry)
    (hmsg : strTruthy req.message = true)
    (hsid : req.sessionId = some s) (hs : s ≠ "")
    (hE : mapGet st.chatSessions s = some entry) :
    chatMessage req prompt now1 now2 ts st =
      finishMessage req entry prompt now2 ts st
    ∧ (∀ resp, prompt entry.chat (req.message.getD "") = Except.ok resp →
        (chatMessage req prompt now1 now2 ts st).1 =
          MsgOutcome.okResponse s entry.agentName (req.message.getD "") resp ts) := by
  have hred := chatMessage_existing req prompt now1 now2 ts st s entry hmsg hsid hs hE
  refine ⟨hred, ?_⟩
  intro resp hp
  rw [hred]
  simp [finishMessage, hp, hsid, jsOr_some s hs]

/-- Witness for C1: session `"s1"` bound to `"book"`, caller passes
`agentName := "crypto"`; the stored binding wins. -/
theorem spec_C1_witness :
    chatMessage
        { sessionId := some "s1", agentName := some "crypto", message := some "hi" }
        (fun _ _ => Except.ok "R") 3 4 "T"
        { chatSessions := [("s1",
            { chat := { handleId := 0, agent := AgentHandle.bookAssistant,
                        id := "s1", persist := true }, agentName := "book" })],
          nextHandle := 1 } =
      finishMessage
        { sessionId := some "s1", agentName := some "crypto", message := some "hi" }
        { chat := { handleId := 0, agent := AgentHandle.bookAssistant,
                    id := "s1", persist := true }, agentName := "book" }
        (fun _ _ => Except.ok "R") 4 "T"
        { chatSessions := [("s1",
            { chat := { handleId := 0, agent := AgentHandle.bookAssistant,
                        id := "s1", persist := true }, agentName := "book" })],
          nextHandle := 1 }
    ∧ (chatMessage
        { sessionId := some "s1", agentName := some "crypto", message := some "hi" }
        (fun _ _ => Except.ok "R") 3 4 "T"
        { chatSessions := [("s1",
            { chat := { handleId := 0, agent := AgentHandle.bookAssistant,
                        id := "s1", persist := true }, agentName := "book" })],
          nextHandle := 1 }).1 =
        MsgOutcome.okResponse "s1" "book" "hi" "R" "T" := by
  have h := spec_C1
    { sessionId := some "s1", agentName := some "crypto", message := some "hi" }
    (fun _ _ => Except.ok "R") 3 4 "T"
    { chatSessions := [("s1",
        { chat := { handleId := 0, agent := AgentHandle.bookAssistant,
                    id := "s1", persist := true }, agentName := "book" })],
      nextHandle := 1 }
    "s1"
    { chat := { handleId := 0, agent := AgentHandle.bookAssistant,
                id := "s1", persist := true }, agentName := "book" }
    (by decide) (by decide) (by decide) (by decide)
  exact ⟨h.1, h.2 "R" (by decide)⟩

/-- C2: after a successful `getOrCreateChatSession` for session id `s`,
calling it again with the same `s` (and any resolvable agent name)
returns the very chat-handle value stored by the first call and leaves
the state — including the handle-freshness counter — unchanged: no
second handle is constructed. -/
theorem spec_C2 (a₁ a₂ s : String) (hs : s ≠ "") (now₁ now₂ : Nat)
    (st st₁ : ServerState) (r : ChatSessionResult) (agent₂ : AgentHandle)
    (h1 : getOrCreateChatSession a₁ (some s) now₁ st = Except.ok (r, st₁))
    (hA2 : getAgent a₂ = Except.ok agent₂) :
    getOrCreateChatSession a₂ (some s) now₂ st₁ =
      Except.ok ({ sessionId := s, chat := r.chat, agentName := r.agentName }, st₁) := by
  obtain ⟨hsid, hstored⟩ := getOrCreate_stored a₁ s now₁ st st₁ r hs h1
  have h := getOrCreate_hit a₂ (some s) now₂ st₁ agent₂
    { chat := r.chat, agentName := r.agentName } hA2 (by rwa [jsOr_some s hs])
  simpa [jsOr_some s hs] using h

/-- Witness for C2: `"s1"` created for `"book"`, second call with
`"crypto"` still returns the first handle and does not change state. -/
theorem spec_C2_witness :
    getOrCreateChatSession "crypto" (some "s1") 5
      { chatSessions := [("s1",
          { chat := { handleId := 0, agent := AgentHandle.bookAssistant,
                      id := "s1", persist := true }, agentName := "book" })],
        nextHandle := 1 } =
      Except.ok
        ({ sessionId := "s1",
           chat := { handleId := 0, agent := AgentHandle.bookAssistant,
                     id := "s1", persist := true },
           agentName := "book" },
         { chatSessions := [("s1",
             { chat := { handleId := 0, agent := AgentHandle.bookAssistant,
                         id := "s1", persist := true }, agentName := "book" })],
           nextHandle := 1 }) :=
  spec_C2 "book" "crypto" "s1" (by decide) 0 5
    { chatSessions := [], nextHandle := 0 }
    { chatSessions := [("s1",
        { chat := { handleId := 0, agent := AgentHandle.bookAssistant,
                    id := "s1", persist := true }, agentName := "book" })],
      nextHandle := 1 }
    { sessionId := "s1",
      chat := { handleId := 0, agent := AgentHandle.bookAssistant,
                id := "s1", persist := true },
      agentName := "book" }
    AgentHandle.cryptoAssistant (by decide) (by decide)

/-- C6 as stated is false: `getOrCreateChatSession` resolves the
caller-supplied agent name *before* checking the registry, so with
session `"s1"` present (bound to `"book"`) a caller-supplied name
`"unknown"` makes the call throw `Unknown agent: unknown` instead of
succeeding with the stored entry. -/
theorem spec_C6_counterexample :
    getOrCreateChatSession "unknown" (some "s1") 0
      { chatSessions := [("s1",
          { chat := { handleId := 0, agent := AgentHandle.bookAssistant,
                      id := "s1", persist := true }, agentName := "book" })],
        nextHandle := 1 } =
      Except.error "Unknown agent: unknown" := by decide

/-- C6 amended: for a session id present in the registry and any
caller-supplied agent name **that itself resolves through the alias
table**, `getOrCreateChatSession` succeeds and returns the existing
entry's chat handle together with the agent name stored in the
registry, leaving the state unchanged. -/
theorem spec_C6 (a s : String) (now : Nat) (st : ServerState)
    (agent : AgentHandle) (entry : SessionEntry)
    (hA : getAgent a = Except.ok agent) (hs : s ≠ "")
    (hE : mapGet st.chatSessions s = some entry) :
    getOrCreateChatSession a (some s) now st =
      Except.ok
        ({ sessionId := s, chat := entry.chat, agentName := entry.agentName }, st) := by
  have h := getOrCreate_hit a (some s) now st agent entry hA (by rwa [jsOr_some s hs])
  simpa [jsOr_some s hs] using h

/-- Witness for C6 amended: resolvable caller name `"CRYPTO"` on a
session stored for `"book"` returns the stored binding. -/
theorem spec_C6_witness :
    getOrCreateChatSession "CRYPTO" (some "s1") 7
      { chatSessions := [("s1",
          { chat := { handleId := 0, agent := AgentHandle.bookAssistant,
                      id := "s1", persist := true }, agentName := "book" })],
        nextHandle := 1 } =
      Except.ok
        ({ sessionId := "s1",
           chat := { handleId := 0, agent := AgentHandle.bookAssistant,
                     id := "s1", persist := true },
           agentName := "book" },
         { chatSessions := [("s1",
             { chat := { handleId := 0, agent := AgentHandle.bookAssistant,
                         id := "s1", persist := true }, agentName := "book" })],
           nextHandle := 1 }) :=
  spec_C6 "CRYPTO" "s1" 7
    { chatSessions := [("s1",
        { chat := { handleId := 0, agent := AgentHandle.bookAssistant,
                    id := "s1", persist := true }, agentName := "book" })],
      nextHandle := 1 }
    AgentHandle.cryptoAssistant
    { chat := { handleId := 0, agent := AgentHandle.bookAssistant,
                id := "s1", persist := true }, agentName := "book" }
    (by decide) (by decide) (by decide)

/-- C4: `POST /api/chat/message` answers 400 `Message is required` for
every request with a falsy message, whatever the target fields; with a
truthy message but neither an existing (truthy) session id nor a truthy
agent name it answers 400 `Either sessionId or agentName is required`;
in both cases the returned state is the input state — no registry entry
is created or mutated. -/
theorem spec_C4 (req : ChatRequest)
    (prompt : Chat → String → Except String String) (now1 now2 : Nat)
    (ts : String) (st : ServerState) :
    (strTruthy req.message = false →
      chatMessage req prompt now1 now2 ts st =
        (MsgOutcome.badRequest "Message is required", st))
    ∧ (strTruthy req.message = true →
      (strTruthy req.sessionId &&
        mapHas st.chatSessions (req.sessionId.getD "")) = false →
      strTruthy req.agentName = false →
      chatMessage req prompt now1 now2 ts st =
        (MsgOutcome.badRequest "Either sessionId or agentName is required", st)) := by
  constructor
  · intro h
    simp [chatMessage, h]
  · intro h1 h2 h3
    simp [chatMessage, h1, h2, h3]

/-- Witness for C4: empty message (target fields present), and
non-empty message with an absent session id and no agent name. -/
theorem spec_C4_witness :
    chatMessage
        { sessionId := some "s1", agentName := some "book", message := some "" }
        (fun _ _ => Except.ok "r") 0 0 "T" { chatSessions := [], nextHandle := 0 } =
      (MsgOutcome.badRequest "Message is required",
        { chatSessions := [], nextHandle := 0 })
    ∧ chatMessage
        { sessionId := some "nope", agentName := none, message := some "hi" }
        (fun _ _ => Except.ok "r") 0 0 "T" { chatSessions := [], nextHandle := 0 } =
      (MsgOutcome.badRequest "Either sessionId or agentName is required",
        { chatSessions := [], nextHandle := 0 }) :=
  ⟨(spec_C4 { sessionId := some "s1", agentName := some "book", message := some "" }
      (fun _ _ => Except.ok "r") 0 0 "T" { chatSessions := [], nextHandle := 0 }).1
      (by decide),
   (spec_C4 { sessionId := some "nope", agentName := none, message := some "hi" }
      (fun _ _ => Except.ok "r") 0 0 "T" { chatSessions := [], nextHandle := 0 }).2
      (by decide) (by decide) (by decide)⟩

/-- C3: on the streaming path, once a chat session is resolved and the
runtime's stream is obtained, then whatever event sequence the runtime
emits: the first frame on the wire is the synthetic start frame and it
is the only start frame, at most one terminal (`end`/`error`) frame is
written, and every terminal frame is the last frame written
(`terminalOnlyLast`) — no frame follows a terminal frame. -/
theorem spec_C3 (req : ChatRequest) (cs : SessionEntry)
    (evs : List StreamEvent) (now2 : Nat) (st : ServerState) :
    ((streamDispatch req cs (Except.ok evs) now2 st).1.wireFrames).head? =
        some (Frame.start (jsOr req.sessionId (genSessionId cs.agentName now2))
          cs.agentName)
    ∧ ((streamDispatch req cs (Except.ok evs) now2 st).1.wireFrames).countP
        (fun f => isStartFrame f) = 1
    ∧ ((streamDispatch req cs (Except.ok evs) now2 st).1.wireFrames).countP
        (fun f => isTerminalFrame f) ≤ 1
    ∧ terminalOnlyLast ((streamDispatch req cs (Except.ok evs) now2 st).1.wireFrames)
        = true := by
  have hfr := streamDispatch_ok_frames req cs evs now2 st
  have hinv := relay_foldl_inv
    (Frame.start (jsOr req.sessionId (genSessionId cs.agentName now2)) cs.agentName)
    evs _
    (relayInv_init (jsOr req.sessionId (genSessionId cs.agentName now2)) cs.agentName)
  obtain ⟨hhead, hcount, hopen, hclosed⟩ := hinv
  have htol : terminalOnlyLast
      (evs.foldl relayEvent
        { frames := [Frame.start (jsOr req.sessionId (genSessionId cs.agentName now2))
            cs.agentName],
          ended := false }).frames = true := by
    cases hend : (evs.foldl relayEvent
        { frames := [Frame.start (jsOr req.sessionId (genSessionId cs.agentName now2))
            cs.agentName],
          ended := false }).ended with
    | true => exact hclosed hend
    | false => exact noTerminal_terminalOnlyLast _ (hopen hend)
  rw [hfr]
  exact ⟨hhead, hcount, terminalOnlyLast_countP _ htol, htol⟩

/-- C7 as stated is false for the unknown-agent case: on
`POST /api/chat/stream`, an unknown agent name throws inside
`getOrCreateChatSession`, and the catch block writes an `error` frame
(`res.write`) on the not-yet-upgraded response instead of answering
400 — so a frame IS written. -/
theorem spec_C7_counterexample :
    chatStream
        { sessionId := none, agentName := some "unknown-agent", message := some "hi" }
        (Except.ok []) 0 0 { chatSessions := [], nextHandle := 0 } =
      (StreamOutcome.relayed false [Frame.error "Unknown agent: unknown-agent"],
        { chatSessions := [], nextHandle := 0 })
    ∧ (chatStream
        { sessionId := none, agentName := some "unknown-agent", message := some "hi" }
        (Except.ok []) 0 0 { chatSessions := [], nextHandle := 0 }).1.wireFrames ≠ [] := by
  decide

/-- C7 amended: the empty-message and missing-target validations are
answered with a plain 400 response and no event-stream frame; an
unknown agent name, however, is answered by the catch handler writing a
single `error` frame on the non-upgraded response (no 400).  In all
three cases the registry state is unchanged. -/
theorem spec_C7 (req : ChatRequest) (streamOf : Except String (List StreamEvent))
    (now1 now2 : Nat) (st : ServerState) :
    (strTruthy req.message = false →
      chatStream req streamOf now1 now2 st =
        (StreamOutcome.badRequest "Message is required", st)
      ∧ (chatStream req streamOf now1 now2 st).1.wireFrames = [])
    ∧ (strTruthy req.message = true →
      (strTruthy req.sessionId &&
        mapHas st.chatSessions (req.sessionId.getD "")) = false →
      strTruthy req.agentName = false →
      chatStream req streamOf now1 now2 st =
        (StreamOutcome.badRequest "Either sessionId or agentName is required", st)
      ∧ (chatStream req streamOf now1 now2 st).1.wireFrames = [])
    ∧ (∀ e, strTruthy req.message = true →
      (strTruthy req.sessionId &&
        mapHas st.chatSessions (req.sessionId.getD "")) = false →
      strTruthy req.agentName = true →
      getAgent (req.agentName.getD "") = Except.error e →
      chatStream req streamOf now1 now2 st =
        (StreamOutcome.relayed false [Frame.error e], st)) := by
  refine ⟨?_, ?_, ?_⟩
  · intro h
    have he : chatStream req streamOf now1 now2 st =
        (StreamOutcome.badRequest "Message is required", st) := by
      simp [chatStream, h]
    exact ⟨he, by rw [he]; rfl⟩
  · intro h1 h2 h3
    have he : chatStream req streamOf now1 now2 st =
        (StreamOutcome.badRequest "Either sessionId or agentName is required", st) := by
      simp [chatStream, h1, h2, h3]
    exact ⟨he, by rw [he]; rfl⟩
  · intro e h1 h2 h3 h4
    have hoc : getOrCreateChatSession (req.agentName.getD "") req.sessionId now1 st =
        Except.error e := by
      simp [getOrCreateChatSession, h4]
    simp [chatStream, h1, h2, h3, hoc, resWrite, resEnd]

/-- Witness for C7 amended, at three concrete requests. -/
theorem spec_C7_witness :
    (chatStream { sessionId := none, agentName := none, message := none }
        (Except.ok []) 0 0 { chatSessions := [], nextHandle := 0 } =
      (StreamOutcome.badRequest "Message is required",
        { chatSessions := [], nextHandle := 0 }))
    ∧ (chatStream { sessionId := some "nope", agentName := none, message := some "hi" }
        (Except.ok []) 0 0 { chatSessions := [], nextHandle := 0 } =
      (StreamOutcome.badRequest "Either sessionId or agentName is required",
        { chatSessions := [], nextHandle := 0 }))
    ∧ (chatStream { sessionId := none, agentName := some "nope-agent", message := some "hi" }
        (Except.ok []) 0 0 { chatSessions := [], nextHandle := 0 } =
      (StreamOutcome.relayed false [Frame.error "Unknown agent: nope-agent"],
        { chatSessions := [], nextHandle := 0 })) := by
  refine ⟨?_, ?_, ?_⟩
  · exact ((spec_C7 { sessionId := none, agentName := none, message := none }
      (Except.ok []) 0 0 { chatSessions := [], nextHandle := 0 }).1 (by decide)).1
  · exact ((spec_C7 { sessionId := some "nope", agentName := none, message := some "hi" }
      (Except.ok []) 0 0 { chatSessions := [], nextHandle := 0 }).2.1
      (by decide) (by decide) (by decide)).1
  · exact (spec_C7 { sessionId := none, agentName := some "nope-agent", message := some "hi" }
      (Except.ok []) 0 0 { chatSessions := [], nextHandle := 0 }).2.2
      "Unknown agent: nope-agent" (by decide) (by decide) (by decide) (by decide)

/-- C8: on the non-streaming path with an existing session, a failure
of the chat handle's prompt is answered with the catch block's 500
(`Failed to process message`, the runtime's message in `details`), and
the state is returned unchanged: the same registry entry, with the same
chat handle, is still found under the session id. -/
theorem spec_C8 (req : ChatRequest)
    (prompt : Chat → String → Except String String) (now1 now2 : Nat)
    (ts : String) (st : ServerState) (s : String) (entry : SessionEntry)
    (e : String)
    (hmsg : strTruthy req.message = true)
    (hsid : req.sessionId = some s) (hs : s ≠ "")
    (hE : mapGet st.chatSessions s = some entry)
    (hp : prompt entry.chat (req.message.getD "") = Except.error e) :
    chatMessage req prompt now1 now2 ts st =
      (MsgOutcome.serverError "Failed to process message" e, st)
    ∧ mapGet (chatMessage req prompt now1 now2 ts st).2.chatSessions s = some entry := by
  have hred := chatMessage_existing req prompt now1 now2 ts st s entry hmsg hsid hs hE
  have heq : chatMessage req prompt now1 now2 ts st =
      (MsgOutcome.serverError "Failed to process message" e, st) := by
    rw [hred]
    simp [finishMessage, hp]
  exact ⟨heq, by rw [heq]; exact hE⟩

/-- Witness for C8: the runtime fails with `"boom"` on session `"s1"`. -/
theorem spec_C8_witness :
    chatMessage { sessionId := some "s1", agentName := none, message := some "hi" }
        (fun _ _ => Except.error "boom") 0 0 "T"
        { chatSessions := [("s1",
            { chat := { handleId := 0, agent := AgentHandle.bookAssistant,
                        id := "s1", persist := true }, agentName := "book" })],
          nextHandle := 1 } =
      (MsgOutcome.serverError "Failed to process message" "boom",
        { chatSessions := [("s1",
            { chat := { handleId := 0, agent := AgentHandle.bookAssistant,
                        id := "s1", persist := true }, agentName := "book" })],
          nextHandle := 1 })
    ∧ mapGet (chatMessage { sessionId := some "s1", agentName := none, message := some "hi" }
        (fun _ _ => Except.error "boom") 0 0 "T"
        { chatSessions := [("s1",
            { chat := { handleId := 0, agent := AgentHandle.bookAssistant,
                        id := "s1", persist := true }, agentName := "book" })],
          nextHandle := 1 }).2.chatSessions "s1" =
      some { chat := { handleId := 0, agent := AgentHandle.bookAssistant,
                       id := "s1", persist := true }, agentName := "book" } :=
  spec_C8 { sessionId := some "s1", agentName := none, message := some "hi" }
    (fun _ _ => Except.error "boom") 0 0 "T"
    { chatSessions := [("s1",
        { chat := { handleId := 0, agent := AgentHandle.bookAssistant,
                    id := "s1", persist := true }, agentName := "book" })],
      nextHandle := 1 }
    "s1"
    { chat := { handleId := 0, agent := AgentHandle.bookAssistant,
                id := "s1", persist := true }, agentName := "book" }
    "boom" (by decide) (by decide) (by decide) (by decide) (by decide)

/-- C9: deleting an existing session id removes exactly that entry
(size drops by one, the id no longer resolves) and reports success;
deleting an absent id reports not-found and leaves the state unchanged.
The no-duplicate-keys hypothesis holds for every state the server can
build, since `mapSet` never inserts a duplicate key. -/
theorem spec_C9 (s : String) (st : ServerState)
    (hnd : (st.chatSessions.map Prod.fst).Nodup) :
    (mapHas st.chatSessions s = true →
      deleteSession s st =
        (DeleteOutcome.ok "Session deleted successfully",
          { st with chatSessions := mapDelete st.chatSessions s })
      ∧ (mapDelete st.chatSessions s).length + 1 = st.chatSessions.length
      ∧ mapGet (mapDelete st.chatSessions s) s = none)
    ∧ (mapHas st.chatSessions s = false →
      deleteSession s st = (DeleteOutcome.notFound "Session not found", st)) := by
  constructor
  · intro h
    exact ⟨by simp [deleteSession, h], mapDelete_length _ _ hnd h, mapGet_mapDelete _ _⟩
  · intro h
    simp [deleteSession, h]

/-- Witness for C9 at a one-entry registry: deleting `"s1"` and
deleting the absent `"nope"`. -/
theorem spec_C9_witness :
    (deleteSession "s1"
        { chatSessions := [("s1",
            { chat := { handleId := 0, agent := AgentHandle.bookAssistant,
                        id := "s1", persist := true }, agentName := "book" })],
          nextHandle := 1 } =
      (DeleteOutcome.ok "Session deleted successfully",
        { chatSessions := [], nextHandle := 1 })
      ∧ (0 : Nat) + 1 = 1
      ∧ mapGet ([] : List (String × SessionEntry)) "s1" = none)
    ∧ deleteSession "nope"
        { chatSessions := [("s1",
            { chat := { handleId := 0, agent := AgentHandle.bookAssistant,
                        id := "s1", persist := true }, agentName := "book" })],
          nextHandle := 1 } =
      (DeleteOutcome.notFound "Session not found",
        { chatSessions := [("s1",
            { chat := { handleId := 0, agent := AgentHandle.bookAssistant,
                        id := "s1", persist := true }, agentName := "book" })],
          nextHandle := 1 }) := by
  have h := spec_C9 "s1"
    { chatSessions := [("s1",
        { chat := { handleId := 0, agent := AgentHandle.bookAssistant,
                    id := "s1", persist := true }, agentName := "book" })],
      nextHandle := 1 } (by decide)
  have h2 := spec_C9 "nope"
    { chatSessions := [("s1",
        { chat := { handleId := 0, agent := AgentHandle.bookAssistant,
                    id := "s1", persist := true }, agentName := "book" })],
      nextHandle := 1 } (by decide)
  exact ⟨h.1 (by decide), h2.2 (by decide)⟩

/-- C10 as stated is false: with no `sessionId` supplied, the handler
stores the new entry under `` `session-book-${Date.now()}` `` evaluated
at creation time (`now1 = 0`) but the response body re-evaluates
`` sessionId || `session-...-${Date.now()}` `` at response time
(`now2 = 1`), so the reported session id `"session-book-1"` differs
from the stored key `"session-book-0"` and does not exist in the
registry. -/
theorem spec_C10_counterexample :
    chatMessage { sessionId := none, agentName := some "book", message := some "hi" }
        (fun _ _ => Except.ok "resp") 0 1 "T" { chatSessions := [], nextHandle := 0 } =
      (MsgOutcome.okResponse "session-book-1" "book" "hi" "resp" "T",
        { chatSessions := [("session-book-0",
            { chat := { handleId := 0, agent := AgentHandle.bookAssistant,
                        id := "session-book-0", persist := true },
              agentName := "book" })],
          nextHandle := 1 })
    ∧ mapGet (chatMessage
        { sessionId := none, agentName := some "book", message := some "hi" }
        (fun _ _ => Except.ok "resp") 0 1 "T"
        { chatSessions := [], nextHandle := 0 }).2.chatSessions "session-book-1" = none
    ∧ ("session-book-1" : String) ≠ "session-book-0" := by
  decide

/-- C10 amended: for a request with no `sessionId` that creates a new
session via `agentName`, the entry is stored under the key
`session-<agentName>-<now1>` (creation-time `Date.now()`), while the
session id reported back — in the JSON response of
`POST /api/chat/message` and in the start frame of
`POST /api/chat/stream` alike — is the freshly regenerated
`session-<agentName>-<now2>` (response-time `Date.now()`); the two
coincide exactly when the two clock readings are equal. -/
theorem spec_C10 (a m : String) (agent : AgentHandle) (ha : a ≠ "") (hm : m ≠ "")
    (hA : getAgent a = Except.ok agent)
    (prompt : Chat → String → Except String String) (now1 now2 : Nat)
    (ts resp : String) (st : ServerState)
    (hAbs : mapHas st.chatSessions (genSessionId a now1) = false)
    (hp : prompt
      { handleId := st.nextHandle, agent := agent,
        id := genSessionId a now1, persist := true } m = Except.ok resp) :
    chatMessage { sessionId := none, agentName := some a, message := some m }
        prompt now1 now2 ts st =
      (MsgOutcome.okResponse (genSessionId a now2) a m resp ts,
        { chatSessions := st.chatSessions ++
            [(genSessionId a now1,
              { chat := { handleId := st.nextHandle, agent := agent,
                          id := genSessionId a now1, persist := true },
                agentName := a })],
          nextHandle := st.nextHandle + 1 })
    ∧ (now1 = now2 → genSessionId a now2 = genSessionId a now1)
    ∧ (∀ evs, ((chatStream { sessionId := none, agentName := some a, message := some m }
        (Except.ok evs) now1 now2 st).1.wireFrames).head? =
          some (Frame.start (genSessionId a now2) a)) := by
  have hmiss := getOrCreate_miss a none now1 st agent hA hAbs
  refine ⟨?_, ?_, ?_⟩
  · simp [chatMessage, strTruthy_some a ha, strTruthy_some m hm, strTruthy, hmiss,
      finishMessage, hp, jsOr, hm, ha]
  · intro h
    rw [h]
  · intro evs
    have hst : chatStream { sessionId := none, agentName := some a, message := some m }
        (Except.ok evs) now1 now2 st =
        streamDispatch { sessionId := none, agentName := some a, message := some m }
          { chat := { handleId := st.nextHandle, agent := agent,
                      id := genSessionId a now1, persist := true },
            agentName := a }
          (Except.ok evs) now2
          { chatSessions := st.chatSessions ++
              [(genSessionId a now1,
                { chat := { handleId := st.nextHandle, agent := agent,
                            id := genSessionId a now1, persist := true },
                  agentName := a })],
            nextHandle := st.nextHandle + 1 } := by
      simp [chatStream, strTruthy_some a ha, strTruthy_some m hm, strTruthy, hmiss,
        hm, ha, jsOr]
    rw [hst]
    exact streamDispatch_head _ _ _ _ _

/-- Witness for C10 amended (both clock readings equal to 5, so the
reported id and the stored key coincide here). -/
theorem spec_C10_witness :
    chatMessage { sessionId := none, agentName := some "book", message := some "hi" }
        (fun _ _ => Except.ok "resp") 5 5 "T" { chatSessions := [], nextHandle := 0 } =
      (MsgOutcome.okResponse (genSessionId "book" 5) "book" "hi" "resp" "T",
        { chatSessions := [(genSessionId "book" 5,
            { chat := { handleId := 0, agent := AgentHandle.bookAssistant,
                        id := genSessionId "book" 5, persist := true },
              agentName := "book" })],
          nextHandle := 1 })
    ∧ genSessionId "book" 5 = genSessionId "book" 5
    ∧ ((chatStream { sessionId := none, agentName := some "book", message := some "hi" }
        (Except.ok []) 5 5 { chatSessions := [], nextHandle := 0 }).1.wireFrames).head? =
      some (Frame.start (genSessionId "book" 5) "book") := by
  have h := spec_C10 "book" "hi" AgentHandle.bookAssistant (by decide) (by decide)
    (by decide) (fun _ _ => Except.ok "resp") 5 5 "T" "resp"
    { chatSessions := [], nextHandle := 0 } (by decide) (by decide)
  exact ⟨h.1, h.2.1 rfl, h.2.2 []⟩

end VibeRoz
